import Mathlib

/-!
# Verification of the AeroSandbox tutorial snapshot

A shallow embedding of the three files of this snapshot of the AeroSandbox
repository:

* `tutorial/03 - .../01 - 1D Rocket Problem with Manual Dynamics.ipynb`
* `tutorial/10 - Miscellaneous/02 - Constraining Gradients.ipynb`
* `.github/workflows/run-pytest.yml`

Numpy vectors are embedded as `Fin n → ℚ` (for pointwise constraint reasoning)
and as `List ℚ` (for shape/length reasoning); Python floats are embedded as
exact rationals.  The notebooks' cell structure is embedded as lists of
statements with a small execution semantics; the CI workflow is embedded as a
structure mirroring the YAML fields.
-/

namespace AeroSandbox

namespace Rocket

/-! ## Rocket notebook, cell 1: constants and discretization

Source:
```
N = 100
time_final = 100
time = np.linspace(0, time_final, N)
mass_initial = 500e3
y_final = 100e3
g = 9.81
alpha = 1 / (300 * g)
```
-/

/-- The number of discretization points, `N = 100`. -/
def N : ℕ := 100

/-- The final time, `time_final = 100` seconds. -/
def time_final : ℚ := 100

/-- The initial mass, `mass_initial = 500e3` kg. -/
def mass_initial : ℚ := 500000

/-- The final altitude, `y_final = 100e3` m. -/
def y_final : ℚ := 100000

/-- Gravity, `g = 9.81` m/s², exactly `981/100` as a rational. -/
def g : ℚ := 981 / 100

/-- Inverse specific impulse, `alpha = 1 / (300 * g)`. -/
def alpha : ℚ := 1 / (300 * g)

/-- Numpy `np.linspace(a, b, n)` as a `Fin n`-indexed vector: `n` evenly spaced
points from `a` to `b` inclusive, point `i` being `a + (b - a) * i / (n-1)`. -/
def linspace (a b : ℚ) (n : ℕ) : Fin n → ℚ :=
  fun i => a + (b - a) * (i : ℚ) / ((n : ℚ) - 1)

/-- The time grid, `time = np.linspace(0, time_final, N)`. -/
def time : Fin 100 → ℚ := linspace 0 time_final N

/-- Numpy `np.diff(x)` for a length-`n+1` vector: `(np.diff x) i = x (i+1) - x i`,
a length-`n` vector. -/
def npDiff {n : ℕ} (x : Fin (n + 1) → ℚ) : Fin n → ℚ :=
  fun i => x i.succ - x i.castSucc

/-- The slice `x[:-1]` of a length-`n+1` vector: drop the last entry. -/
def sliceInit {n : ℕ} (x : Fin (n + 1) → ℚ) : Fin n → ℚ :=
  fun i => x i.castSucc

/-! ## Rocket notebook, cell 2: manual forward-Euler dynamics

Source:
```
opti.subject_to([  # Forward Euler, implemented manually for now
    np.diff(y) == velocity[:-1] * np.diff(time),
    np.diff(velocity) == (u[:-1] / mass[:-1] - g) * np.diff(time),
    np.diff(mass) == (-alpha * u[:-1]) * np.diff(time)
])
```
-/

/-- The three manually written forward-Euler dynamics constraints of the
rocket notebook, as a predicate on an assignment of the four decision
variables (each a length-100 vector). -/
def manualDynamics (y velocity mass u : Fin 100 → ℚ) : Prop :=
  (npDiff y = fun i => sliceInit velocity i * npDiff time i)
  ∧ (npDiff velocity = fun i => (sliceInit u i / sliceInit mass i - g) * npDiff time i)
  ∧ (npDiff mass = fun i => (-alpha * sliceInit u i) * npDiff time i)

end Rocket

/-! ## Cell-structure model of the two notebooks

Each notebook is embedded as a list of code cells, each cell a list of
statements.  Statements are classified by kind; Python's `try`/`except`
construct is included in the statement language so that its absence in both
notebooks is a provable fact rather than a modelling assumption. -/

/-- The kinds of atomic (non-compound) Python statements appearing in the two
notebooks. -/
inductive AtomKind where
  /-- The library imports `import aerosandbox as asb` and
  `import aerosandbox.numpy as np`: the library being demonstrated. -/
  | importLibrary
  /-- The auxiliary `import casadi as cas`, used only to build the gradient
  function in the gradients notebook, not the library import step. -/
  | importAuxiliary
  /-- Context creation, `opti = asb.Opti()`. -/
  | createContext
  /-- A plain assignment of a constant or expression
  (`N = 100`, `time = np.linspace(...)`, `dummy = ...`, `dfdx = ...`, ...). -/
  | assignment
  /-- Declaring a decision variable, `... = opti.variable(...)`. -/
  | declareVariable
  /-- Function definition, `def f(x): ...`. -/
  | defineFunction
  /-- Stating constraints directly, `opti.subject_to(...)`. -/
  | subjectTo
  /-- Stating constraints via the derivative-constraint convenience call,
  `opti.constrain_derivative(...)`. -/
  | constrainDeriv
  /-- Setting the objective, `opti.minimize(...)`. -/
  | minimizeObjective
  /-- The solver invocation, `sol = opti.solve(...)`. -/
  | invokeSolver
  /-- Printing a result, `print(...)`. -/
  | printResult
deriving DecidableEq

/-- A statement: either an atomic statement, or a `try`/`except` block (a
body and a handler, each a list of atomic statements).  Neither notebook
contains a `try`/`except`, which the theorems below prove of the model. -/
inductive Stmt where
  | atom (k : AtomKind)
  | tryExcept (body : List AtomKind) (handler : List AtomKind)
deriving DecidableEq

open AtomKind in
/-- Cell 1 of the rocket notebook: imports, environment, time discretization,
constants, and the four decision-variable declarations. -/
def rocketCell1 : List Stmt :=
  [.atom importLibrary, .atom importLibrary, .atom createContext,
   .atom assignment, .atom assignment, .atom assignment,
   .atom assignment, .atom assignment, .atom assignment, .atom assignment,
   .atom declareVariable, .atom declareVariable, .atom declareVariable,
   .atom declareVariable]

open AtomKind in
/-- Cell 2 of the rocket notebook: the manual forward-Euler `subject_to`. -/
def rocketCell2 : List Stmt := [.atom subjectTo]

open AtomKind in
/-- Cell 3 of the rocket notebook: boundary conditions, path constraints,
objective, solve, and the iteration-count print. -/
def rocketCell3 : List Stmt :=
  [.atom subjectTo, .atom subjectTo, .atom minimizeObjective,
   .atom invokeSolver, .atom printResult]

open AtomKind in
/-- Cell 4 of the rocket notebook: the three `constrain_derivative` calls. -/
def rocketCell4 : List Stmt :=
  [.atom constrainDeriv, .atom constrainDeriv, .atom constrainDeriv]

/-- The rocket notebook's code cells, in order. -/
def rocketNotebook : List (List Stmt) :=
  [rocketCell1, rocketCell2, rocketCell3, rocketCell4]

open AtomKind in
/-- Cell 1 of the gradients notebook: imports, context, the decision
variable `x`, and `def f(x): return x ** 4`. -/
def gradientsCell1 : List Stmt :=
  [.atom importLibrary, .atom importLibrary, .atom createContext,
   .atom declareVariable, .atom defineFunction]

open AtomKind in
/-- Cell 2 of the gradients notebook: `import casadi as cas`, the dummy
symbol, and the `dfdx` CasADi function. -/
def gradientsCell2 : List Stmt :=
  [.atom importAuxiliary, .atom assignment, .atom assignment]

open AtomKind in
/-- Cell 3 of the gradients notebook: the gradient constraint, solve, and the
`x_optimal` print. -/
def gradientsCell3 : List Stmt :=
  [.atom subjectTo, .atom invokeSolver, .atom printResult]

open AtomKind in
/-- Cell 4 of the gradients notebook: printing `(1 / 4) ** (1 / 3)`. -/
def gradientsCell4 : List Stmt := [.atom printResult]

/-- The gradients notebook's code cells, in order. -/
def gradientsNotebook : List (List Stmt) :=
  [gradientsCell1, gradientsCell2, gradientsCell3, gradientsCell4]

/-- All statements of a notebook in execution order (cells concatenated). -/
def notebookSteps (nb : List (List Stmt)) : List Stmt := nb.flatten

/-- The phase a statement belongs to in the claimed linear order
`import library (0) → declare variables (1) → state constraints (2) →
invoke solver (3) → print result (4)`; `none` for auxiliary statements the
order does not speak about. -/
def stepPhase : Stmt → Option ℕ
  | .atom .importLibrary => some 0
  | .atom .declareVariable => some 1
  | .atom .subjectTo => some 2
  | .atom .constrainDeriv => some 2
  | .atom .invokeSolver => some 3
  | .atom .printResult => some 4
  | _ => none

/-- A list of naturals is nondecreasing. -/
def nondecreasing : List ℕ → Bool
  | [] => true
  | [_] => true
  | a :: b :: t => decide (a ≤ b) && nondecreasing (b :: t)

/-- The claimed linear step order holds of a statement sequence: its phased
statements occur in nondecreasing phase order. -/
def linearOrder (steps : List Stmt) : Bool :=
  nondecreasing (steps.filterMap stepPhase)

/-- Whether a statement states constraints (directly or via the
derivative-constraint convenience call). -/
def isConstraintStating : Stmt → Bool
  | .atom .subjectTo => true
  | .atom .constrainDeriv => true
  | _ => false

/-- Whether a statement is the solver invocation. -/
def isSolver : Stmt → Bool
  | .atom .invokeSolver => true
  | _ => false

/-- The statements strictly after the first solver invocation. -/
def afterFirstSolver (steps : List Stmt) : List Stmt :=
  (steps.dropWhile (fun s => !isSolver s)).tail

/-- No constraint-stating statement occurs after the (first) solver
invocation. -/
def noConstraintAfterSolve (steps : List Stmt) : Bool :=
  (afterFirstSolver steps).all (fun t => !isConstraintStating t)

/-! ## Cell execution semantics

A behaviour assigns to each atomic statement either success (`none`) or a
raised error (`some e`).  Running a cell executes its statements in order;
an error raised by an atomic statement terminates the cell immediately unless
a `try`/`except` handler encloses it. -/

/-- Run a list of atomic statements: returns the executed atoms in order and
the first raised error, if any; execution stops at the first raising atom. -/
def runAtoms {ε : Type} (beh : AtomKind → Option ε) :
    List AtomKind → List AtomKind × Option ε
  | [] => ([], none)
  | a :: rest =>
    match beh a with
    | some e => ([a], some e)
    | none =>
      let r := runAtoms beh rest
      (a :: r.1, r.2)

/-- Run a cell (a list of statements).  An error raised by an atomic statement
propagates and terminates the cell; a `try`/`except` block catches an error
raised in its body and runs its handler instead. -/
def runCell {ε : Type} (beh : AtomKind → Option ε) :
    List Stmt → List AtomKind × Option ε
  | [] => ([], none)
  | .atom a :: rest =>
    match beh a with
    | some e => ([a], some e)
    | none =>
      let r := runCell beh rest
      (a :: r.1, r.2)
  | .tryExcept body handler :: rest =>
    let b := runAtoms beh body
    match b.2 with
    | none =>
      let r := runCell beh rest
      (b.1 ++ r.1, r.2)
    | some _ =>
      let h := runAtoms beh handler
      match h.2 with
      | some e => (b.1 ++ h.1, some e)
      | none =>
        let r := runCell beh rest
        (b.1 ++ h.1 ++ r.1, r.2)

/-- Whether a statement is a `try`/`except` construct. -/
def isHandler : Stmt → Bool
  | .tryExcept _ _ => true
  | _ => false

/-- Whether any cell of a notebook contains a `try`/`except`. -/
def notebookHasHandler (nb : List (List Stmt)) : Bool :=
  nb.any (fun cell => cell.any isHandler)

/-! ## The CI workflow `.github/workflows/run-pytest.yml` -/

/-- A GitHub Actions job step.  `condition` models the optional `if:` key and
`continueOnError` the `continue-on-error:` key; both are absent from every
step of the workflow file, embedded as `none` / `false`.  `usesWith` models
the `with:` mapping of an action step (brace interpolation syntax around
`matrix.python-version` elided).  Each `run` script line is embedded as its
list of whitespace-separated tokens. -/
structure WFStep where
  stepName : Option String
  uses : Option String
  usesWith : List (String × String)
  run : List (List String)
  condition : Option String
  continueOnError : Bool
deriving DecidableEq

/-- The `on:` trigger configuration: branch patterns for `push` and
`pull_request`, `none` when the event key is absent. -/
structure WFTrigger where
  pushBranches : Option (List String)
  pullRequestBranches : Option (List String)
deriving DecidableEq

/-- A (single-job) GitHub Actions workflow, as in `run-pytest.yml`. -/
structure Workflow where
  wfName : String
  trigger : WFTrigger
  runsOn : String
  matrixPythonVersion : List String
  steps : List WFStep
deriving DecidableEq

/-- The workflow file `.github/workflows/run-pytest.yml`, transcribed
field by field:

```
name: Tests
on:
  push:        { branches: ['**'] }
  pull_request: { branches: ['**'] }
jobs:
  build:
    runs-on: ubuntu-latest
    strategy:
      matrix:
        python-version: [ '3.9' , '3.11' , '3.12' ]
    steps:
      - uses: actions/checkout@v4
      - name: Set up Python (matrix version)
        uses: actions/setup-python@v5
        with: { python-version: <matrix.python-version> }
      - name: Install dependencies
        run: pip cache purge / upgrade pip / upgrade setuptools
      - name: Test with pytest (without extras; only package)
        run: pip install .[test]; pytest aerosandbox
      - name: Test with pytest (with extras; only tutorials)
        run: pip install .[full,test]; py.test tutorial --nbval-lax --nbval-cell-timeout 120
```
-/
def runPytestWorkflow : Workflow :=
  ⟨"Tests",
   ⟨some ["**"], some ["**"]⟩,
   "ubuntu-latest",
   ["3.9", "3.11", "3.12"],
   [⟨none, some ("actions/checkout@v4"), [], [], none, false⟩,
    ⟨some ("Set up Python"), some ("actions/setup-python@v5"),
     [("python-version", "matrix.python-version")], [], none, false⟩,
    ⟨some ("Install dependencies"), none, [],
     [["python", "-m", "pip", "cache", "purge"],
      ["python", "-m", "pip", "install", "--upgrade", "pip"],
      ["python", "-m", "pip", "install", "--upgrade", "setuptools"]],
     none, false⟩,
    ⟨some ("Test with pytest (without extras; only package)"), none, [],
     [["python", "-m", "pip", "install", ".[test]"],
      ["pytest", "aerosandbox"]], none, false⟩,
    ⟨some ("Test with pytest (with extras; only tutorials)"), none, [],
     [["python", "-m", "pip", "install", ".[full,test]"],
      ["py.test", "tutorial", "--nbval-lax", "--nbval-cell-timeout", "120"]],
     none, false⟩]⟩

/-- Whether a shell command line (a token list) invokes the test runner
(`pytest ...` or `py.test ...`). -/
def isTestCommand (line : List String) : Bool :=
  line.head? == some ("pytest") || line.head? == some ("py.test")

/-- All test-runner command lines of a workflow, in step order. -/
def testCommands (w : Workflow) : List (List String) :=
  ((w.steps.map WFStep.run).flatten).filter isTestCommand

/-- Job-level execution semantics of a step list: steps run in order; a step
whose command exits nonzero (`outcome s = false`) fails the job immediately,
unless the step is marked `continue-on-error`. -/
def runJobSteps (outcome : WFStep → Bool) : List WFStep → Bool
  | [] => true
  | s :: rest =>
    if outcome s then runJobSteps outcome rest
    else if s.continueOnError then runJobSteps outcome rest
    else false

/-- The execution result of one notebook cell when re-executed by the
notebook-testing plugin: whether it raised an error, how long it ran
(seconds), and whether its stored outputs match the re-execution outputs. -/
structure CellExec where
  raisesError : Bool
  durationSec : ℕ
  outputMatches : Bool
deriving DecidableEq

/-- Modelled from the spec: the `nbval` notebook-testing plugin invoked by
the workflow's tutorial test step is an external plugin whose code is not in
this snapshot; the spec describes the invocation only as a test "against the
tutorial notebooks with a per-cell execution timeout".  A cell fails when it
raises an error or exceeds the per-cell timeout, and additionally — only when
lax mode is off — when its stored outputs do not match re-execution. -/
def nbvalCellFails (lax : Bool) (timeoutSec : ℕ) (c : CellExec) : Bool :=
  c.raisesError || decide (timeoutSec < c.durationSec)
    || (!lax && !c.outputMatches)

/-- The final (tutorial-test) step of the workflow. -/
def tutorialTestStep : WFStep :=
  (runPytestWorkflow.steps).getLastD ⟨none, none, [], [], none, false⟩

/-- The tutorial test command line of the workflow (as its token list). -/
def tutorialTestCommand : List String := tutorialTestStep.run.getLastD []

/-! ## Gradients notebook: recorded solver output -/

/-- The solver output recorded in the gradients notebook's cell 3 output:
`x_optimal = 0.6299605894866889`, as an exact rational. -/
def x_optimal_recorded : ℚ := 6299605894866889 / 10 ^ 16

/-! ## List-level (shape-aware) model of the numpy operations

Used for shape-consistency reasoning: vectors are lists, and elementwise
binary operations are partial, failing on shape mismatch as numpy would
refuse to broadcast incompatible 1-D shapes. -/

/-- Numpy `np.linspace(a, b, n)` as a list. -/
def linspaceL (a b : ℚ) (n : ℕ) : List ℚ :=
  (List.range n).map (fun i : ℕ => a + (b - a) * (i : ℚ) / ((n : ℚ) - 1))

/-- Numpy `np.diff` on a list vector: successive differences (length one less). -/
def npDiffL (xs : List ℚ) : List ℚ :=
  List.zipWith (fun a b => b - a) xs xs.tail

/-- The slice `x[:-1]` on a list vector: all but the last element. -/
def sliceInitL (xs : List ℚ) : List ℚ := xs.dropLast

/-- Shape-checked elementwise binary operation on two 1-D vectors: defined
only when the lengths agree. -/
def ewise (f : ℚ → ℚ → ℚ) (xs ys : List ℚ) : Option (List ℚ) :=
  if xs.length = ys.length then some (List.zipWith f xs ys) else none

/-- Shape-checked equality constraint between two 1-D vectors: the
constructed constraint (its two sides), defined only when the lengths
agree. -/
def eqConstraint (xs ys : List ℚ) : Option (List ℚ × List ℚ) :=
  if xs.length = ys.length then some (xs, ys) else none

/-- The time grid as a list: `np.linspace(0, time_final, N)`. -/
def timeL : List ℚ := linspaceL 0 Rocket.time_final Rocket.N

/-- Construction of `np.diff(y) == velocity[:-1] * np.diff(time)` with all
elementwise operations shape-checked. -/
def rocketConstraint1 (y velocity t : List ℚ) : Option (List ℚ × List ℚ) :=
  (ewise (· * ·) (sliceInitL velocity) (npDiffL t)).bind
    (fun rhs => eqConstraint (npDiffL y) rhs)

/-- Construction of
`np.diff(velocity) == (u[:-1] / mass[:-1] - g) * np.diff(time)` with all
elementwise operations shape-checked (subtracting the scalar `g` broadcasts
and needs no check). -/
def rocketConstraint2 (velocity mass u t : List ℚ) : Option (List ℚ × List ℚ) :=
  (ewise (· / ·) (sliceInitL u) (sliceInitL mass)).bind
    (fun q => (ewise (· * ·) (q.map (fun a => a - Rocket.g)) (npDiffL t)).bind
      (fun rhs => eqConstraint (npDiffL velocity) rhs))

/-- Construction of `np.diff(mass) == (-alpha * u[:-1]) * np.diff(time)` with
all elementwise operations shape-checked (the scalar multiple `-alpha * _`
broadcasts and needs no check). -/
def rocketConstraint3 (mass u t : List ℚ) : Option (List ℚ × List ℚ) :=
  (ewise (· * ·) ((sliceInitL u).map (fun a => -Rocket.alpha * a)) (npDiffL t)).bind
    (fun rhs => eqConstraint (npDiffL mass) rhs)

/-! ## Optimization context model -/

/-- Modelled from the spec: the `asb.Opti` optimization context class is code
of the AeroSandbox repository that is not included in this snapshot.  The
spec describes it as "an optimization context object (holds decision
variables and accumulated constraints)"; its state is the held decision
variables and the accumulated symbolic constraint expressions, over abstract
types of variables `V` and constraints `C`. -/
structure OptiState (V C : Type) where
  vars : List V
  constraints : List C

/-- Modelled from the spec: `opti.variable(...)` introduces one new decision
variable into the context. -/
def OptiState.variableOp {V C : Type} (s : OptiState V C) (v : V) :
    OptiState V C :=
  ⟨s.vars ++ [v], s.constraints⟩

/-- Modelled from the spec: `opti.subject_to([...])` accumulates the given
constraints into the context. -/
def OptiState.subjectToOp {V C : Type} (s : OptiState V C) (cs : List C) :
    OptiState V C :=
  ⟨s.vars, s.constraints ++ cs⟩

/-- Modelled from the spec: `opti.constrain_derivative(...)` is a single
delegating call that accumulates the discretized derivative constraint into
the context. -/
def OptiState.constrainDerivativeOp {V C : Type} (s : OptiState V C) (c : C) :
    OptiState V C :=
  ⟨s.vars, s.constraints ++ [c]⟩

/-- Modelled from the spec: `opti.solve()` hands the accumulated problem to
the external solver and returns a solution object; the context's state (held
variables and accumulated constraints) after the call. -/
def OptiState.solveOp {V C : Type} (s : OptiState V C) : OptiState V C := s

end AeroSandbox

/-! # Theorems -/

namespace AeroSandbox

namespace Rocket

/-- Each step of the `time` grid has the same positive width `100/99`. -/
theorem npDiff_time_eq (i : Fin 99) : npDiff time i = 100 / 99 := by
  simp only [npDiff, time, linspace, N, time_final, Fin.val_succ,
    Fin.coe_castSucc]
  push_cast
  ring

/-- The constant `alpha` is positive. -/
theorem alpha_pos : 0 < alpha := by norm_num [alpha, g]

/-- C5: under the mass dynamics constraint
`np.diff(mass) == (-alpha * u[:-1]) * np.diff(time)` and the path constraint
`u >= 0`, with the notebook's `alpha > 0` and strictly increasing `time` grid,
the mass vector is non-increasing: `mass[i+1] <= mass[i]` for every
`0 <= i <= 98`. -/
theorem mass_nonincreasing (mass u : Fin 100 → ℚ)
    (hdyn : npDiff mass = fun i => (-alpha * sliceInit u i) * npDiff time i)
    (hu : ∀ i : Fin 100, 0 ≤ u i) :
    ∀ i : Fin 99, mass i.succ ≤ mass i.castSucc := by
  intro i
  have h := congrFun hdyn i
  rw [npDiff_time_eq] at h
  simp only [npDiff, sliceInit] at h
  have hα := alpha_pos
  have hui := hu i.castSucc
  nlinarith [mul_nonneg hα.le hui]

/-- Concrete witness for `mass_nonincreasing`: constant mass `500000` and zero
thrust satisfy the dynamics constraint and the path constraint, and the mass
is (weakly) non-increasing. -/
theorem mass_nonincreasing_witness :
    ((npDiff (fun _ => (500000 : ℚ)) : Fin 99 → ℚ)
        = fun i => (-alpha * sliceInit (fun _ => (0 : ℚ)) i) * npDiff time i)
    ∧ (∀ i : Fin 100, (0 : ℚ) ≤ (fun _ => (0 : ℚ)) i)
    ∧ (∀ i : Fin 99, (fun _ => (500000 : ℚ)) i.succ
        ≤ (fun _ => (500000 : ℚ)) i.castSucc) := by
  refine ⟨?_, ?_, ?_⟩
  · funext i
    simp [npDiff, sliceInit]
  · intro i
    exact le_refl 0
  · exact mass_nonincreasing (fun _ => (500000 : ℚ)) (fun _ => (0 : ℚ))
      (by funext i; simp [npDiff, sliceInit]) (fun i => le_refl 0)

end Rocket

/-- C2 counterexample: the rocket notebook is not in the claimed linear order,
and in particular it does have constraint-stating steps after the solver
invocation (the `constrain_derivative` cell follows the solve cell), so the
claim is false as stated. -/
theorem rocket_constraints_after_solve :
    linearOrder (notebookSteps rocketNotebook) = false
    ∧ noConstraintAfterSolve (notebookSteps rocketNotebook) = false := by
  constructor <;> rfl

/-- C2 (amended): the gradients notebook is a linear script in the claimed
order (library import, variable declaration, constraint, solve, print) with no
constraint-stating step after the solver invocation; the rocket notebook
follows the claimed order through its solve-and-print cell (its first 20
statements), but its final code cell consists of exactly three
derivative-constraint convenience calls, stated after the solver
invocation. -/
theorem step_order_amended :
    linearOrder (notebookSteps gradientsNotebook) = true
    ∧ noConstraintAfterSolve (notebookSteps gradientsNotebook) = true
    ∧ linearOrder ((notebookSteps rocketNotebook).take 20) = true
    ∧ (notebookSteps rocketNotebook).drop 20
        = [.atom .constrainDeriv, .atom .constrainDeriv, .atom .constrainDeriv]
    ∧ afterFirstSolver (notebookSteps rocketNotebook)
        = .atom .printResult :: (notebookSteps rocketNotebook).drop 20 := by
  refine ⟨rfl, rfl, rfl, rfl, rfl⟩

/-- C6: neither notebook contains any error-handling construct, and in each
notebook's solve cell, any error raised by `opti.solve` propagates uncaught
and terminates the executing cell: the statements after the solver invocation
(the result prints) are not executed, and the cell's result is the raised
error. -/
theorem solve_errors_uncaught :
    notebookHasHandler rocketNotebook = false
    ∧ notebookHasHandler gradientsNotebook = false
    ∧ ∀ (ε : Type) (beh : AtomKind → Option ε) (e : ε),
        beh .subjectTo = none →
        beh .minimizeObjective = none →
        beh .invokeSolver = some e →
        runCell beh rocketCell3
          = ([.subjectTo, .subjectTo, .minimizeObjective, .invokeSolver], some e)
        ∧ runCell beh gradientsCell3
          = ([.subjectTo, .invokeSolver], some e) := by
  refine ⟨rfl, rfl, ?_⟩
  intro ε beh e h1 h2 h3
  constructor
  · simp [runCell, rocketCell3, h1, h2, h3]
  · simp [runCell, gradientsCell3, h1, h3]

/-- Concrete witness for `solve_errors_uncaught`: under the behaviour where
only the solver invocation raises, each solve cell terminates at the solver
invocation with the error uncaught. -/
theorem solve_errors_uncaught_witness :
    runCell (fun k => if k = AtomKind.invokeSolver then some () else none)
        rocketCell3
      = ([.subjectTo, .subjectTo, .minimizeObjective, .invokeSolver], some ())
    ∧ runCell (fun k => if k = AtomKind.invokeSolver then some () else none)
        gradientsCell3
      = ([.subjectTo, .invokeSolver], some ()) :=
  solve_errors_uncaught.2.2 Unit
    (fun k => if k = AtomKind.invokeSolver then some () else none) ()
    rfl rfl rfl

/-- C3: the CI workflow is triggered on push and pull-request events, is
parameterized by the interpreter-version matrix 3.9/3.11/3.12, and its linear
step sequence performs package installation followed by exactly two
test invocations: `pytest aerosandbox` against the packaged library, and the
tutorial-notebook run with a 120-second per-cell execution timeout.  The
per-step counts of test commands show the install steps precede both test
steps. -/
theorem ci_triggers_matrix_and_tests :
    runPytestWorkflow.trigger = ⟨some ["**"], some ["**"]⟩
    ∧ runPytestWorkflow.matrixPythonVersion = ["3.9", "3.11", "3.12"]
    ∧ testCommands runPytestWorkflow
        = [["pytest", "aerosandbox"],
           ["py.test", "tutorial", "--nbval-lax", "--nbval-cell-timeout", "120"]]
    ∧ (testCommands runPytestWorkflow).length = 2
    ∧ runPytestWorkflow.steps.map (fun s => s.run.countP isTestCommand)
        = [0, 0, 0, 1, 1]
    ∧ tutorialTestCommand.contains ("--nbval-cell-timeout") = true
    ∧ tutorialTestCommand.contains ("120") = true := by
  refine ⟨rfl, rfl, by decide, by decide, by decide, by decide, by decide⟩

/-- When no step of a job is marked `continue-on-error`, the job succeeds
exactly when every step's command exits zero, and any nonzero exit fails the
job. -/
theorem runJobSteps_eq_all (outcome : WFStep → Bool) :
    ∀ l : List WFStep, (∀ s ∈ l, s.continueOnError = false) →
      runJobSteps outcome l = l.all outcome := by
  intro l
  induction l with
  | nil => intro _; rfl
  | cons s rest ih =>
    intro h
    have hs : s.continueOnError = false := h s (List.mem_cons_self s rest)
    have hrest : ∀ t ∈ rest, t.continueOnError = false :=
      fun t ht => h t (List.mem_cons_of_mem s ht)
    cases hout : outcome s with
    | true => simp [runJobSteps, hout, ih hrest]
    | false => simp [runJobSteps, hout, hs]

/-- C7: the workflow's failure semantics are binary on step exit status: no
step carries an `if:` condition or `continue-on-error`, so under the job
execution semantics the job succeeds exactly when every step's commands exit
zero — a nonzero exit of any install or test step fails the job, with no
retry or partial-failure handling authored in the workflow. -/
theorem ci_failure_binary :
    runPytestWorkflow.steps.all
        (fun s => !s.continueOnError && (s.condition == none)) = true
    ∧ ∀ outcome : WFStep → Bool,
        runJobSteps outcome runPytestWorkflow.steps
          = runPytestWorkflow.steps.all outcome := by
  constructor
  · decide
  · intro outcome
    exact runJobSteps_eq_all outcome runPytestWorkflow.steps (by decide)

/-- C10: the CI tutorial test invocation passes `--nbval-lax` and
`--nbval-cell-timeout 120`, and under the (spec-modelled) cell pass/fail rule
in lax mode with a 120-second timeout, a cell fails exactly when it raises an
error or runs longer than 120 seconds — the stored outputs' agreement with
re-execution does not affect the outcome. -/
theorem ci_tutorial_nbval_lax :
    tutorialTestCommand
        = ["py.test", "tutorial", "--nbval-lax", "--nbval-cell-timeout", "120"]
    ∧ tutorialTestCommand.contains ("--nbval-lax") = true
    ∧ (∀ (e : Bool) (d : ℕ) (m : Bool),
        nbvalCellFails true 120 ⟨e, d, m⟩ = (e || decide (120 < d)))
    ∧ (∀ (e : Bool) (d : ℕ) (m₁ m₂ : Bool),
        nbvalCellFails true 120 ⟨e, d, m₁⟩ = nbvalCellFails true 120 ⟨e, d, m₂⟩) := by
  refine ⟨rfl, by decide, ?_, ?_⟩
  · intro e d m
    simp [nbvalCellFails]
  · intro e d m₁ m₂
    simp [nbvalCellFails]

/-- Numpy `np.diff` shortens a list vector by one. -/
theorem length_npDiffL (xs : List ℚ) : (npDiffL xs).length = xs.length - 1 := by
  simp only [npDiffL, List.length_zipWith, List.length_tail]
  omega

/-- The slice `x[:-1]` shortens a list vector by one. -/
theorem length_sliceInitL (xs : List ℚ) :
    (sliceInitL xs).length = xs.length - 1 := by
  simp [sliceInitL]

/-- The `time` vector has length `N = 100`. -/
theorem length_timeL : timeL.length = 100 := by
  simp only [timeL, linspaceL, List.length_map, List.length_range, Rocket.N]

/-- A shape-checked elementwise operation on equal-length vectors succeeds. -/
theorem ewise_some (f : ℚ → ℚ → ℚ) (xs ys : List ℚ)
    (h : xs.length = ys.length) :
    ewise f xs ys = some (List.zipWith f xs ys) := by
  simp [ewise, h]

/-- A shape-checked equality constraint on equal-length vectors succeeds. -/
theorem eqConstraint_some (xs ys : List ℚ) (h : xs.length = ys.length) :
    eqConstraint xs ys = some (xs, ys) := by
  simp [eqConstraint, h]

/-- C9: with all four decision variables of length `N = 100` (`y`'s length
from its `np.linspace` initial guess, the others fixed by `n_vars=N`), each of
the three forward-Euler dynamics constraints is shape-consistent: every
elementwise operation in its construction succeeds, and each constraint
equates two vectors of length `N - 1 = 99`. -/
theorem rocket_constraints_shape_safe (y velocity mass u : List ℚ)
    (hy : y.length = 100) (hv : velocity.length = 100)
    (hm : mass.length = 100) (hu : u.length = 100) :
    ((linspaceL 0 Rocket.y_final Rocket.N).length = 100 ∧ timeL.length = 100)
    ∧ (∃ p, rocketConstraint1 y velocity timeL = some p
        ∧ p.1.length = 99 ∧ p.2.length = 99)
    ∧ (∃ p, rocketConstraint2 velocity mass u timeL = some p
        ∧ p.1.length = 99 ∧ p.2.length = 99)
    ∧ (∃ p, rocketConstraint3 mass u timeL = some p
        ∧ p.1.length = 99 ∧ p.2.length = 99) := by
  have hT := length_timeL
  refine ⟨⟨by simp only [linspaceL, List.length_map, List.length_range,
    Rocket.N], hT⟩, ?_, ?_, ?_⟩
  · have h1 : (sliceInitL velocity).length = (npDiffL timeL).length := by
      simp [length_sliceInitL, length_npDiffL, hv, hT]
    have h2 : (npDiffL y).length
        = (List.zipWith (· * ·) (sliceInitL velocity) (npDiffL timeL)).length := by
      simp [length_npDiffL, List.length_zipWith, length_sliceInitL, hy, hv, hT]
    refine ⟨(npDiffL y,
        List.zipWith (· * ·) (sliceInitL velocity) (npDiffL timeL)),
      ?_, ?_, ?_⟩
    · rw [rocketConstraint1, ewise_some _ _ _ h1, Option.some_bind,
        eqConstraint_some _ _ h2]
    · simp [length_npDiffL, hy]
    · simp [List.length_zipWith, length_sliceInitL, length_npDiffL, hv, hT]
  · have h1 : (sliceInitL u).length = (sliceInitL mass).length := by
      simp [length_sliceInitL, hu, hm]
    have h2 : ((List.zipWith (· / ·) (sliceInitL u) (sliceInitL mass)).map
          (fun a => a - Rocket.g)).length = (npDiffL timeL).length := by
      simp [List.length_zipWith, length_sliceInitL, length_npDiffL, hu, hm, hT]
    have h3 : (npDiffL velocity).length
        = (List.zipWith (· * ·)
            ((List.zipWith (· / ·) (sliceInitL u) (sliceInitL mass)).map
              (fun a => a - Rocket.g)) (npDiffL timeL)).length := by
      simp [length_npDiffL, List.length_zipWith, length_sliceInitL,
        hv, hu, hm, hT]
    refine ⟨(npDiffL velocity,
        List.zipWith (· * ·)
          ((List.zipWith (· / ·) (sliceInitL u) (sliceInitL mass)).map
            (fun a => a - Rocket.g)) (npDiffL timeL)),
      ?_, ?_, ?_⟩
    · rw [rocketConstraint2, ewise_some _ _ _ h1, Option.some_bind,
        ewise_some _ _ _ h2, Option.some_bind, eqConstraint_some _ _ h3]
    · simp [length_npDiffL, hv]
    · simp [List.length_zipWith, length_sliceInitL, length_npDiffL, hu, hm, hT]
  · have h1 : ((sliceInitL u).map (fun a => -Rocket.alpha * a)).length
        = (npDiffL timeL).length := by
      simp [length_sliceInitL, length_npDiffL, hu, hT]
    have h2 : (npDiffL mass).length
        = (List.zipWith (· * ·)
            ((sliceInitL u).map (fun a => -Rocket.alpha * a))
            (npDiffL timeL)).length := by
      simp [length_npDiffL, List.length_zipWith, length_sliceInitL, hm, hu, hT]
    refine ⟨(npDiffL mass,
        List.zipWith (· * ·)
          ((sliceInitL u).map (fun a => -Rocket.alpha * a)) (npDiffL timeL)),
      ?_, ?_, ?_⟩
    · rw [rocketConstraint3, ewise_some _ _ _ h1, Option.some_bind,
        eqConstraint_some _ _ h2]
    · simp [length_npDiffL, hm]
    · simp [List.length_zipWith, length_sliceInitL, length_npDiffL, hu, hT]

/-- Concrete witness for `rocket_constraints_shape_safe`: four length-100
zero vectors. -/
theorem rocket_constraints_shape_safe_witness :
    (List.replicate 100 (0 : ℚ)).length = 100
    ∧ (((linspaceL 0 Rocket.y_final Rocket.N).length = 100
          ∧ timeL.length = 100)
      ∧ (∃ p, rocketConstraint1 (List.replicate 100 (0 : ℚ))
            (List.replicate 100 (0 : ℚ)) timeL = some p
          ∧ p.1.length = 99 ∧ p.2.length = 99)
      ∧ (∃ p, rocketConstraint2 (List.replicate 100 (0 : ℚ))
            (List.replicate 100 (0 : ℚ)) (List.replicate 100 (0 : ℚ)) timeL
            = some p
          ∧ p.1.length = 99 ∧ p.2.length = 99)
      ∧ (∃ p, rocketConstraint3 (List.replicate 100 (0 : ℚ))
            (List.replicate 100 (0 : ℚ)) timeL = some p
          ∧ p.1.length = 99 ∧ p.2.length = 99)) :=
  ⟨by simp,
   rocket_constraints_shape_safe (List.replicate 100 (0 : ℚ))
     (List.replicate 100 (0 : ℚ)) (List.replicate 100 (0 : ℚ))
     (List.replicate 100 (0 : ℚ)) (by simp) (by simp) (by simp) (by simp)⟩

/-- C8: the optimization context accumulates monotonically: declaring a
variable appends it to the held variables and leaves the constraints
untouched; `subject_to` and `constrain_derivative` append to the accumulated
constraints and leave the variables untouched; `solve` leaves the whole state
unchanged, so constraints can still be added to the same context after a
solve, exactly as before it. -/
theorem opti_state_monotone :
    ∀ (V C : Type) (s : OptiState V C) (v : V) (cs : List C) (c : C),
      ((s.variableOp v).vars = s.vars ++ [v]
        ∧ (s.variableOp v).constraints = s.constraints)
      ∧ ((s.subjectToOp cs).vars = s.vars
        ∧ (s.subjectToOp cs).constraints = s.constraints ++ cs)
      ∧ ((s.constrainDerivativeOp c).vars = s.vars
        ∧ (s.constrainDerivativeOp c).constraints = s.constraints ++ [c])
      ∧ s.solveOp = s
      ∧ (s.solveOp.subjectToOp cs).constraints = s.constraints ++ cs :=
  fun _ _ _ _ _ _ => ⟨⟨rfl, rfl⟩, ⟨rfl, rfl⟩, ⟨rfl, rfl⟩, rfl, rfl⟩

/-- C4: the unique real solution of `4*x^3 = 1` is `(1/4)^(1/3)`, and the
solver output recorded in the gradients notebook
(`x_optimal = 0.6299605894866889`) matches this closed-form value to within
`1e-6`. -/
theorem x_optimal_matches_closed_form :
    ∃ x : ℝ, (4 * x ^ 3 = 1)
      ∧ (∀ z : ℝ, 4 * z ^ 3 = 1 → z = x)
      ∧ x = (1 / 4 : ℝ) ^ ((1 : ℝ) / 3)
      ∧ |(x_optimal_recorded : ℝ) - x| < 1 / 10 ^ 6 := by
  have h0 : (0 : ℝ) ≤ 1 / 4 := by norm_num
  have hodd : Odd 3 := by decide
  have hmono := Odd.strictMono_pow (R := ℝ) hodd
  set x : ℝ := (1 / 4 : ℝ) ^ ((1 : ℝ) / 3) with hxdef
  have hx3 : x ^ 3 = 1 / 4 := by
    rw [hxdef, ← Real.rpow_natCast ((1 / 4 : ℝ) ^ ((1 : ℝ) / 3)) 3,
      ← Real.rpow_mul h0]
    norm_num
  refine ⟨x, by rw [hx3]; norm_num, ?_, rfl, ?_⟩
  · intro z hz
    have hz3 : z ^ 3 = x ^ 3 := by rw [hx3]; linarith
    exact hmono.injective hz3
  · have hlow : ((x_optimal_recorded : ℝ) - 1 / 10 ^ 6) ^ 3 < 1 / 4 := by
      rw [x_optimal_recorded]
      push_cast
      norm_num
    have hhigh : (1 / 4 : ℝ) < ((x_optimal_recorded : ℝ) + 1 / 10 ^ 6) ^ 3 := by
      rw [x_optimal_recorded]
      push_cast
      norm_num
    rw [← hx3] at hlow hhigh
    have h1 : (x_optimal_recorded : ℝ) - 1 / 10 ^ 6 < x :=
      hmono.lt_iff_lt.mp hlow
    have h2 : x < (x_optimal_recorded : ℝ) + 1 / 10 ^ 6 :=
      hmono.lt_iff_lt.mp hhigh
    rw [abs_sub_lt_iff]
    constructor <;> linarith

end AeroSandbox
